import Mathlib

/-!
Shallow embedding of the generative-poster pipeline (`src/app.py`):
shape generation (`blob`, `heart`), palette resolution (`make_palette`),
scene composition (`draw_poster`), and the palette-store deletion.

Real-number and library primitives that the Python code obtains from
`math`/`numpy`/`matplotlib` (`cos`, `sin`, `pi`, `hsv_to_rgb`) and the two
pseudo-random generators (`random` and `np.random`) are abstracted into a
record of primitive families, so every definition stays executable and every
theorem quantifies over them.  A generator is modelled by its seed together
with a position into the seed's draw stream; `random.seed` / `np.random.seed`
reset the position to zero.
-/

namespace PosterApp

/-- An RGB color, channels as rationals. -/
abbrev Color : Type := ℚ × ℚ × ℚ

/-- Abstract primitives: trig/π, matplotlib's `hsv_to_rgb`, and the value
families of the two pseudo-random generators.  `pyFloat s i` is the value of
the `i`-th draw of Python's `random` module after `random.seed s`; `pyNat` is
the index family backing `random.choice`; `npFloat` likewise for numpy's
global generator after `np.random.seed s`. -/
structure Prims where
  cos : ℚ → ℚ
  sin : ℚ → ℚ
  pi : ℚ
  hsv_to_rgb : ℚ → ℚ → ℚ → Color
  pyFloat : ℕ → ℕ → ℚ
  pyNat : ℕ → ℕ → ℕ
  npFloat : ℕ → ℕ → ℚ

/-- State of one pseudo-random generator: the seed it was last seeded with and
the number of draws consumed since. -/
structure RngState where
  seed : ℕ
  pos : ℕ
deriving DecidableEq

/-- `random.random()`: one uniform draw from the Python generator. -/
def randomFloat (P : Prims) (g : RngState) : ℚ × RngState :=
  (P.pyFloat g.seed g.pos, ⟨g.seed, g.pos + 1⟩)

/-- `random.uniform(a, b) = a + (b-a) * random.random()`. -/
def randomUniform (P : Prims) (a b : ℚ) (g : RngState) : ℚ × RngState :=
  let u := randomFloat P g
  (a + (b - a) * u.1, u.2)

/-- `random.choice(l)`: one draw giving an in-range index into `l`
(CPython's `_randbelow` guarantees the index is uniform in `[0, len l)`,
modelled by reducing the abstract index draw modulo `l.length`).
Returns the chosen index together with the element. -/
def randomChoice (P : Prims) (l : List Color) (g : RngState) :
    ℕ × Color × RngState :=
  let idx := P.pyNat g.seed g.pos % l.length
  (idx, l.getD idx (0, 0, 0), ⟨g.seed, g.pos + 1⟩)

/-- `np.random.rand(pts)`: `pts` consecutive draws from the numpy generator. -/
def npRandArray (P : Prims) (pts : ℕ) (g : RngState) : List ℚ × RngState :=
  ((List.range pts).map (fun i => P.npFloat g.seed (g.pos + i)),
   ⟨g.seed, g.pos + pts⟩)

/-- `np.linspace(0, 2*math.pi, pts, endpoint=False)`:
the angles `2π·i/pts` for `i = 0, …, pts-1`. -/
def linspaceTwoPi (P : Prims) (pts : ℕ) : List ℚ :=
  (List.range pts).map (fun (i : ℕ) => 2 * P.pi * (i : ℚ) / (pts : ℚ))

/-- A closed outline, as the parallel coordinate arrays the shapes return. -/
structure Outline where
  xs : List ℚ
  ys : List ℚ
deriving DecidableEq

/-- `blob(center, r, points, wobble)` from `app.py`:
`angles = linspace(0, 2π, points, endpoint=False)`,
`radii = r * (1 + wobble*(rand(points) - 0.5))`,
`x = cx + radii*cos(angles)`, `y = cy + radii*sin(angles)`. -/
def blob (P : Prims) (center : ℚ × ℚ) (r : ℚ) (pts : ℕ) (wobble : ℚ)
    (g : RngState) : Outline × RngState :=
  let angles := linspaceTwoPi P pts
  let draws := npRandArray P pts g
  let radii := draws.1.map (fun u => r * (1 + wobble * (u - 1/2)))
  let xs := (radii.zip angles).map (fun p => center.1 + p.1 * P.cos p.2)
  let ys := (radii.zip angles).map (fun p => center.2 + p.1 * P.sin p.2)
  (⟨xs, ys⟩, draws.2)

/-- `heart(center, r, points, wobble)` from `app.py`:
`t = linspace(0, 2π, points, endpoint=False)`,
`base_x = 16*sin(t)^3`,
`base_y = 13*cos(t) - 5*cos(2t) - 2*cos(3t) - cos(4t)`,
`x_norm = base_x/16`, `y_norm = base_y/16`,
`wobble_factor = 1 + wobble*(rand(points) - 0.5)` (one draw per point, shared
between x and y), `x = cx + x_norm*r*wobble_factor`,
`y = cy + y_norm*r*wobble_factor`. -/
def heart (P : Prims) (center : ℚ × ℚ) (r : ℚ) (pts : ℕ) (wobble : ℚ)
    (g : RngState) : Outline × RngState :=
  let t := linspaceTwoPi P pts
  let base_x := t.map (fun a => 16 * (P.sin a) ^ 3)
  let base_y := t.map (fun a =>
    13 * P.cos a - 5 * P.cos (2 * a) - 2 * P.cos (3 * a) - P.cos (4 * a))
  let x_norm := base_x.map (fun b => b / 16)
  let y_norm := base_y.map (fun b => b / 16)
  let draws := npRandArray P pts g
  let wobble_factor := draws.1.map (fun u => 1 + wobble * (u - 1/2))
  let xs := (x_norm.zip wobble_factor).map
    (fun p => center.1 + p.1 * r * p.2)
  let ys := (y_norm.zip wobble_factor).map
    (fun p => center.2 + p.1 * r * p.2)
  (⟨xs, ys⟩, draws.2)

/-- One entry of the session-state custom palette: `{"name": …, "r": …,
"g": …, "b": …}`. -/
structure PaletteEntry where
  name : String
  r : ℚ
  g : ℚ
  b : ℚ
deriving DecidableEq

/-- Result of `make_palette`: the colors, whether `st.warning` was emitted,
and the Python generator state after the call. -/
structure PaletteResult where
  colors : List Color
  warned : Bool
  rng : RngState
deriving DecidableEq

/-- One iteration of the HSV sampling loop in `make_palette`, by mode:
pastel draws (h, s∈[0.15,0.35], v∈[0.9,1.0]); vivid (h, s∈[0.8,1.0],
v∈[0.8,1.0]); mono (fixed hue `base_h`, s∈[0.2,0.6], v∈[0.5,1.0]);
anything else (h, s∈[0.3,1.0], v∈[0.5,1.0]). -/
def paletteColor (P : Prims) (mode : String) (base_h : ℚ) (g : RngState) :
    Color × RngState :=
  if mode = "pastel" then
    let h := randomFloat P g
    let s := randomUniform P (15/100) (35/100) h.2
    let v := randomUniform P (9/10) 1 s.2
    (P.hsv_to_rgb h.1 s.1 v.1, v.2)
  else if mode = "vivid" then
    let h := randomFloat P g
    let s := randomUniform P (8/10) 1 h.2
    let v := randomUniform P (8/10) 1 s.2
    (P.hsv_to_rgb h.1 s.1 v.1, v.2)
  else if mode = "mono" then
    let s := randomUniform P (2/10) (6/10) g
    let v := randomUniform P (5/10) 1 s.2
    (P.hsv_to_rgb base_h s.1 v.1, v.2)
  else
    let h := randomFloat P g
    let s := randomUniform P (3/10) 1 h.2
    let v := randomUniform P (5/10) 1 s.2
    (P.hsv_to_rgb h.1 s.1 v.1, v.2)

/-- The `for _ in range(k)` loop of `make_palette`. -/
def paletteLoop (P : Prims) (mode : String) (base_h : ℚ) :
    ℕ → RngState → List Color × RngState
  | 0, g => ([], g)
  | k + 1, g =>
    let c := paletteColor P mode base_h g
    let rest := paletteLoop P mode base_h k c.2
    (c.1 :: rest.1, rest.2)

/-- `make_palette(k, mode, base_h, custom_palette)` from `app.py`.
In `custom` mode with a non-empty palette it returns the stored entries
verbatim as `(r, g, b)` tuples without drawing; with an empty palette it
emits `st.warning` and falls through to the `pastel` sampling loop. -/
def make_palette (P : Prims) (k : ℕ) (mode : String) (base_h : ℚ)
    (custom_palette : List PaletteEntry) (g : RngState) : PaletteResult :=
  if mode = "custom" then
    if custom_palette = [] then
      let r := paletteLoop P "pastel" base_h k g
      ⟨r.1, true, r.2⟩
    else
      ⟨custom_palette.map (fun c => (c.r, c.g, c.b)), false, g⟩
  else
    let r := paletteLoop P mode base_h k g
    ⟨r.1, false, r.2⟩

/-- The per-layer data produced inside the `for _ in range(n_layers)` loop of
`draw_poster`: the sampled center, radius, generated outline, the index drawn
by `random.choice`, the chosen fill color and the alpha.  The triple
(outline, color, alpha) is the draw instruction passed to `ax.fill`. -/
structure LayerData where
  cx : ℚ
  cy : ℚ
  rr : ℚ
  outline : Outline
  colorIdx : ℕ
  color : Color
  alpha : ℚ
deriving DecidableEq

/-- The per-layer loop of `draw_poster`.  Each iteration draws `cx`, `cy`
(`random.random()`), `rr` (`random.uniform(0.15, 0.45)`), generates the
outline (consuming `pts` numpy draws), then checks the empty-palette guard:
on an empty palette it calls `st.error` and returns early; otherwise it draws
the fill color (`random.choice`) and alpha (`random.uniform(0.3, 0.6)`) and
appends the layer.  Returns (layers, errored, final Python state, final
numpy state). -/
def composeLayers (P : Prims) (pts : ℕ) (wobble : ℚ) (shape : String)
    (palette : List Color) :
    ℕ → RngState → RngState → List LayerData × Bool × RngState × RngState
  | 0, py, np => ([], false, py, np)
  | n + 1, py, np =>
    let cxd := randomFloat P py
    let cyd := randomFloat P cxd.2
    let rrd := randomUniform P (15/100) (45/100) cyd.2
    let sh := if shape = "heart" then
        heart P (cxd.1, cyd.1) rrd.1 pts wobble np
      else
        blob P (cxd.1, cyd.1) rrd.1 pts wobble np
    if palette = [] then
      ([], true, rrd.2, sh.2)
    else
      let ch := randomChoice P palette rrd.2
      let al := randomUniform P (3/10) (6/10) ch.2.2
      let rest := composeLayers P pts wobble shape palette n al.2 sh.2
      (⟨cxd.1, cyd.1, rrd.1, sh.1, ch.1, ch.2.1, al.1⟩ :: rest.1,
       rest.2.1, rest.2.2)

/-- The figure `draw_poster` returns, as a scene description: background
color, the layers in draw order, the title (absent on the early error
return), whether `st.error` fired, and whether `make_palette` warned. -/
structure Scene where
  bg : Color
  layers : List LayerData
  title : Option String
  errored : Bool
  warned : Bool
deriving DecidableEq

/-- The ambient global state of the two generator modules at call time. -/
structure Globals where
  py : RngState
  np : RngState
deriving DecidableEq

/-- `draw_poster` with the hard-coded outline point count (200 in the source,
via the shape functions' defaults) abstracted as `pts`.  It re-seeds both
generators (`random.seed(seed); np.random.seed(seed)`), resolves the palette
once with `make_palette(6, mode, custom_palette=…)`, runs the per-layer loop,
and sets the title only when the loop completes.  The incoming `Globals` are
the module generator states before the call; they are overwritten by the
seeding. -/
def draw_posterP (P : Prims) (pts : ℕ) (n_layers : ℕ) (wobble : ℚ)
    (palette_mode : String) (seed : ℕ) (shape : String) (bg : Color)
    (custom_palette : List PaletteEntry) (_g : Globals) : Scene × Globals :=
  let py0 : RngState := ⟨seed, 0⟩
  let np0 : RngState := ⟨seed, 0⟩
  let pal := make_palette P 6 palette_mode (60/100) custom_palette py0
  let L := composeLayers P pts wobble shape pal.colors n_layers pal.rng np0
  if L.2.1 then
    (⟨bg, L.1, none, true, pal.warned⟩, ⟨L.2.2.1, L.2.2.2⟩)
  else
    (⟨bg, L.1,
      some ("Interactive Poster • " ++ shape.capitalize ++ " • "
        ++ palette_mode),
      false, pal.warned⟩,
     ⟨L.2.2.1, L.2.2.2⟩)

/-- `draw_poster(n_layers, wobble, palette_mode, seed, shape, bg_color_rgb,
custom_palette)` from `app.py`: the shape functions are called with their
default `points=200`. -/
def draw_poster (P : Prims) (n_layers : ℕ) (wobble : ℚ)
    (palette_mode : String) (seed : ℕ) (shape : String) (bg : Color)
    (custom_palette : List PaletteEntry) (g : Globals) : Scene × Globals :=
  draw_posterP P 200 n_layers wobble palette_mode seed shape bg
    custom_palette g

/-- Deletion in the palette manager UI:
`[c for c in st.session_state.palette if c["name"] != name_to_delete]`. -/
def removeColor (name : String) (palette : List PaletteEntry) :
    List PaletteEntry :=
  palette.filter (fun c => c.name != name)

/-- Concrete primitives used to instantiate universally quantified theorems
on closed inputs. -/
def P0 : Prims :=
  ⟨fun _ => 0, fun _ => 0, 0, fun _ _ _ => (0, 0, 0),
   fun _ _ => 0, fun _ _ => 0, fun _ _ => 0⟩

/-- The per-layer sampling draws visible in a layer: center, radius, the
index drawn by `random.choice`, and the alpha — everything the Python
generator supplies, with the numpy-driven outline dropped. -/
def layerSample (d : LayerData) : ℚ × ℚ × ℚ × ℕ × ℚ :=
  (d.cx, d.cy, d.rr, d.colorIdx, d.alpha)

/-- Number of Python-generator draws `make_palette(6, mode, …)` consumes:
custom with a non-empty store returns verbatim (0 draws); mono draws 2 per
color (hue is fixed); every other mode — including the empty-custom pastel
fallback — draws 3 per color, for 6 colors. -/
def paletteDrawCount (mode : String) (custom : List PaletteEntry) : ℕ :=
  if mode = "custom" then (if custom = [] then 18 else 0)
  else if mode = "mono" then 12 else 18

namespace SingleStreamSpec

/-- Modelled from the spec (§4.1, §9): the reference behavior is described as
"a single ordered draw sequence from one seeded generator instance per
composeScene call, explicitly threading it through ShapeGenerator and
SceneComposer rather than instantiating independent generators".  This
variant of the wobble-draw array takes its draws from the same stream as the
layer sampling. -/
def randArray (P : Prims) (pts : ℕ) (g : RngState) : List ℚ × RngState :=
  ((List.range pts).map (fun i => P.pyFloat g.seed (g.pos + i)),
   ⟨g.seed, g.pos + pts⟩)

/-- Modelled from the spec: `blob` with its wobble draws threaded from the
single generator. -/
def blob (P : Prims) (center : ℚ × ℚ) (r : ℚ) (pts : ℕ) (wobble : ℚ)
    (g : RngState) : Outline × RngState :=
  let angles := linspaceTwoPi P pts
  let draws := randArray P pts g
  let radii := draws.1.map (fun u => r * (1 + wobble * (u - 1/2)))
  let xs := (radii.zip angles).map (fun p => center.1 + p.1 * P.cos p.2)
  let ys := (radii.zip angles).map (fun p => center.2 + p.1 * P.sin p.2)
  (⟨xs, ys⟩, draws.2)

/-- Modelled from the spec: `heart` with its wobble draws threaded from the
single generator. -/
def heart (P : Prims) (center : ℚ × ℚ) (r : ℚ) (pts : ℕ) (wobble : ℚ)
    (g : RngState) : Outline × RngState :=
  let t := linspaceTwoPi P pts
  let base_x := t.map (fun a => 16 * (P.sin a) ^ 3)
  let base_y := t.map (fun a =>
    13 * P.cos a - 5 * P.cos (2 * a) - 2 * P.cos (3 * a) - P.cos (4 * a))
  let x_norm := base_x.map (fun b => b / 16)
  let y_norm := base_y.map (fun b => b / 16)
  let draws := randArray P pts g
  let wobble_factor := draws.1.map (fun u => 1 + wobble * (u - 1/2))
  let xs := (x_norm.zip wobble_factor).map
    (fun p => center.1 + p.1 * r * p.2)
  let ys := (y_norm.zip wobble_factor).map
    (fun p => center.2 + p.1 * r * p.2)
  (⟨xs, ys⟩, draws.2)

/-- Modelled from the spec: the per-layer loop with one generator state
threaded through both the sampling and the shape wobble draws. -/
def composeLayers (P : Prims) (pts : ℕ) (wobble : ℚ) (shape : String)
    (palette : List Color) : ℕ → RngState → List LayerData × Bool × RngState
  | 0, g => ([], false, g)
  | n + 1, g =>
    let cxd := randomFloat P g
    let cyd := randomFloat P cxd.2
    let rrd := randomUniform P (15/100) (45/100) cyd.2
    let sh := if shape = "heart" then
        heart P (cxd.1, cyd.1) rrd.1 pts wobble rrd.2
      else
        blob P (cxd.1, cyd.1) rrd.1 pts wobble rrd.2
    if palette = [] then
      ([], true, sh.2)
    else
      let ch := randomChoice P palette sh.2
      let al := randomUniform P (3/10) (6/10) ch.2.2
      let rest := composeLayers P pts wobble shape palette n al.2
      (⟨cxd.1, cyd.1, rrd.1, sh.1, ch.1, ch.2.1, al.1⟩ :: rest.1,
       rest.2.1, rest.2.2)

/-- Modelled from the spec: `draw_poster` re-seeding one single generator
once per call and threading it through palette resolution, the per-layer
sampling and the shape wobble draws, with the source's 200-point outlines. -/
def draw_poster_single (P : Prims) (n_layers : ℕ) (wobble : ℚ)
    (palette_mode : String) (seed : ℕ) (shape : String) (bg : Color)
    (custom_palette : List PaletteEntry) : Scene :=
  let g0 : RngState := ⟨seed, 0⟩
  let pal := make_palette P 6 palette_mode (60/100) custom_palette g0
  let L := composeLayers P 200 wobble shape pal.colors n_layers pal.rng
  if L.2.1 then
    ⟨bg, L.1, none, true, pal.warned⟩
  else
    ⟨bg, L.1,
      some ("Interactive Poster • " ++ shape.capitalize ++ " • "
        ++ palette_mode),
      false, pal.warned⟩

end SingleStreamSpec

/-- Concrete primitives distinguishing the two-generator composition of the
source from the single-stream composition: the Python index stream returns
its own position, so where a draw lands in the sequence becomes visible. -/
def Pcex : Prims :=
  ⟨fun _ => 0, fun _ => 0, 0, fun _ _ _ => (0, 0, 0),
   fun _ _ => 0, fun _ i => i, fun _ _ => 0⟩

lemma paletteLoop_length (P : Prims) (mode : String) (base_h : ℚ) :
    ∀ (k : ℕ) (g : RngState), (paletteLoop P mode base_h k g).1.length = k
  | 0, _ => rfl
  | k + 1, g => by
    simp [paletteLoop, paletteLoop_length P mode base_h k]

lemma make_palette_colors_ne_nil (P : Prims) (k : ℕ) (mode : String)
    (base_h : ℚ) (custom : List PaletteEntry) (g : RngState) (hk : 0 < k) :
    (make_palette P k mode base_h custom g).colors ≠ [] := by
  have hloop : ∀ (m : String) (g' : RngState),
      (paletteLoop P m base_h k g').1 ≠ [] := by
    intro m g' h
    have hl := paletteLoop_length P m base_h k g'
    rw [h] at hl
    simp only [List.length_nil] at hl
    omega
  dsimp only [make_palette]
  split
  · split
    · exact hloop "pastel" g
    · show custom.map (fun c => (c.r, c.g, c.b)) ≠ []
      simp only [ne_eq, List.map_eq_nil_iff]
      assumption
  · exact hloop mode g

lemma getD_mod_mem (l : List Color) (i : ℕ) (hne : l ≠ []) :
    l.getD (i % l.length) (0, 0, 0) ∈ l := by
  have hlen : 0 < l.length := List.length_pos.mpr hne
  have hlt : i % l.length < l.length := Nat.mod_lt _ hlen
  rw [List.getD_eq_getElem l _ hlt]
  exact List.getElem_mem hlt

lemma composeLayers_length (P : Prims) (pts : ℕ) (w : ℚ) (shape : String)
    (palette : List Color) (hne : palette ≠ []) :
    ∀ (n : ℕ) (py np : RngState),
      (composeLayers P pts w shape palette n py np).1.length = n
  | 0, _, _ => rfl
  | n + 1, py, np => by
    simp only [composeLayers, if_neg hne, List.length_cons]
    rw [composeLayers_length P pts w shape palette hne n]

lemma composeLayers_not_errored (P : Prims) (pts : ℕ) (w : ℚ)
    (shape : String) (palette : List Color) (hne : palette ≠ []) :
    ∀ (n : ℕ) (py np : RngState),
      (composeLayers P pts w shape palette n py np).2.1 = false
  | 0, _, _ => rfl
  | n + 1, py, np => by
    simp only [composeLayers, if_neg hne]
    exact composeLayers_not_errored P pts w shape palette hne n _ _

lemma composeLayers_color_mem (P : Prims) (pts : ℕ) (w : ℚ)
    (shape : String) (palette : List Color) (hne : palette ≠ []) :
    ∀ (n : ℕ) (py np : RngState),
      ∀ d ∈ (composeLayers P pts w shape palette n py np).1,
        d.color ∈ palette
  | 0, _, _ => by intro d hd; simp [composeLayers] at hd
  | n + 1, py, np => by
    intro d hd
    simp only [composeLayers, if_neg hne, List.mem_cons] at hd
    rcases hd with h | h
    · subst h
      exact getD_mod_mem palette _ hne
    · exact composeLayers_color_mem P pts w shape palette hne n _ _ d h

lemma linspaceTwoPi_length (P : Prims) (pts : ℕ) :
    (linspaceTwoPi P pts).length = pts := by
  rw [linspaceTwoPi, List.length_map, List.length_range]

lemma npRandArray_fst_length (P : Prims) (pts : ℕ) (g : RngState) :
    (npRandArray P pts g).1.length = pts := by
  rw [npRandArray, List.length_map, List.length_range]

lemma blob_xs_length (P : Prims) (c : ℚ × ℚ) (r : ℚ) (pts : ℕ) (w : ℚ)
    (g : RngState) : (blob P c r pts w g).1.xs.length = pts := by
  dsimp only [blob]
  simp only [List.length_map, List.length_zip, npRandArray_fst_length,
    linspaceTwoPi_length, min_self]

lemma blob_ys_length (P : Prims) (c : ℚ × ℚ) (r : ℚ) (pts : ℕ) (w : ℚ)
    (g : RngState) : (blob P c r pts w g).1.ys.length = pts := by
  dsimp only [blob]
  simp only [List.length_map, List.length_zip, npRandArray_fst_length,
    linspaceTwoPi_length, min_self]

lemma heart_xs_length (P : Prims) (c : ℚ × ℚ) (r : ℚ) (pts : ℕ) (w : ℚ)
    (g : RngState) : (heart P c r pts w g).1.xs.length = pts := by
  dsimp only [heart]
  simp only [List.length_map, List.length_zip, npRandArray_fst_length,
    linspaceTwoPi_length, min_self]

lemma heart_ys_length (P : Prims) (c : ℚ × ℚ) (r : ℚ) (pts : ℕ) (w : ℚ)
    (g : RngState) : (heart P c r pts w g).1.ys.length = pts := by
  dsimp only [heart]
  simp only [List.length_map, List.length_zip, npRandArray_fst_length,
    linspaceTwoPi_length, min_self]

lemma composeLayers_outline_length (P : Prims) (pts : ℕ) (w : ℚ)
    (shape : String) (palette : List Color) :
    ∀ (n : ℕ) (py np : RngState),
      ∀ d ∈ (composeLayers P pts w shape palette n py np).1,
        d.outline.xs.length = pts ∧ d.outline.ys.length = pts
  | 0, _, _ => by intro d hd; simp [composeLayers] at hd
  | n + 1, py, np => by
    intro d hd
    simp only [composeLayers] at hd
    by_cases hne : palette = []
    · rw [if_pos hne] at hd
      simp at hd
    · rw [if_neg hne] at hd
      simp only [List.mem_cons] at hd
      rcases hd with h | h
      · subst h
        by_cases hs : shape = "heart" <;>
          simp [hs, heart_xs_length, heart_ys_length, blob_xs_length,
            blob_ys_length]
      · exact composeLayers_outline_length P pts w shape palette n _ _ d h

lemma linspaceTwoPi_getD (P : Prims) (pts i : ℕ) (h : i < pts) :
    (linspaceTwoPi P pts).getD i 0 = 2 * P.pi * (i : ℚ) / (pts : ℚ) := by
  have hlen : i < (linspaceTwoPi P pts).length := by
    rw [linspaceTwoPi_length]
    exact h
  rw [List.getD_eq_getElem _ _ hlen]
  simp [linspaceTwoPi]

/-- C1: for every fixed input tuple (seed, layer count, wobble, palette mode,
shape kind, background color, custom-palette snapshot), two calls to
`draw_poster` — whatever the ambient generator states at call time — produce
structurally identical Scenes: the same outlines, fill colors and alphas in
the same order.  This holds because `draw_poster` re-seeds both generators
from `seed` before drawing. -/
theorem C1_draw_poster_deterministic (P : Prims) (n : ℕ) (w : ℚ)
    (mode : String) (seed : ℕ) (shape : String) (bg : Color)
    (custom : List PaletteEntry) (g g' : Globals) :
    (draw_poster P n w mode seed shape bg custom g).1 =
      (draw_poster P n w mode seed shape bg custom g').1 := rfl

/-- C5: if the resolved palette is empty when composition reaches the
per-layer loop, the loop signals an error and yields no draw instructions. -/
theorem C5_empty_palette_aborts (P : Prims) (pts : ℕ) (w : ℚ)
    (shape : String) (n : ℕ) (py np : RngState) (hn : 1 ≤ n) :
    (composeLayers P pts w shape [] n py np).1 = [] ∧
      (composeLayers P pts w shape [] n py np).2.1 = true := by
  obtain ⟨m, rfl⟩ : ∃ m, n = m + 1 := ⟨n - 1, by omega⟩
  constructor <;> simp [composeLayers]

theorem C5_empty_palette_aborts_witness :
    1 ≤ 2 ∧
      ((composeLayers P0 200 0 "blob" [] 2 ⟨0, 0⟩ ⟨0, 0⟩).1 = [] ∧
        (composeLayers P0 200 0 "blob" [] 2 ⟨0, 0⟩ ⟨0, 0⟩).2.1 = true) :=
  ⟨by decide, C5_empty_palette_aborts P0 200 0 "blob" 2 ⟨0, 0⟩ ⟨0, 0⟩
    (by decide)⟩

/-- C6: for every layer count in [3, 20] (and any inputs), the scene returned
by `draw_poster` contains exactly that many draw instructions. -/
theorem C6_layer_count (P : Prims) (n : ℕ) (w : ℚ) (mode : String)
    (seed : ℕ) (shape : String) (bg : Color) (custom : List PaletteEntry)
    (g : Globals) (h3 : 3 ≤ n) (h20 : n ≤ 20) :
    (draw_poster P n w mode seed shape bg custom g).1.layers.length = n := by
  have hne := make_palette_colors_ne_nil P 6 mode (60/100) custom ⟨seed, 0⟩
    (by omega)
  dsimp only [draw_poster, draw_posterP]
  split
  · exact composeLayers_length P 200 w shape _ hne n _ _
  · exact composeLayers_length P 200 w shape _ hne n _ _

theorem C6_layer_count_witness :
    3 ≤ 4 ∧ 4 ≤ 20 ∧
      (draw_poster P0 4 0 "pastel" 0 "blob" (0, 0, 0) []
        ⟨⟨0, 0⟩, ⟨0, 0⟩⟩).1.layers.length = 4 :=
  ⟨by decide, by decide,
    C6_layer_count P0 4 0 "pastel" 0 "blob" (0, 0, 0) [] ⟨⟨0, 0⟩, ⟨0, 0⟩⟩
      (by decide) (by decide)⟩

/-- C9: removing a name from the palette store deletes all entries with that
name, preserves the relative order of the rest (the result is a sublist),
and in particular turns a store named [a, b, c] into [a, c]. -/
theorem C9_remove_by_name (name : String) (pal : List PaletteEntry) :
    (removeColor name pal).Sublist pal ∧
      (∀ c : PaletteEntry,
        c ∈ removeColor name pal ↔ c ∈ pal ∧ c.name ≠ name) ∧
      removeColor "b"
          [⟨"a", 1, 0, 0⟩, ⟨"b", 0, 1, 0⟩, ⟨"c", 0, 0, 1⟩]
        = [⟨"a", 1, 0, 0⟩, ⟨"c", 0, 0, 1⟩] := by
  refine ⟨List.filter_sublist pal, ?_, by decide⟩
  intro c
  rw [removeColor, List.mem_filter]
  simp [bne_iff_ne]

theorem C9_remove_by_name_witness :
    removeColor "b" [⟨"a", 1, 0, 0⟩, ⟨"b", 0, 1, 0⟩, ⟨"c", 0, 0, 1⟩]
      = [⟨"a", 1, 0, 0⟩, ⟨"c", 0, 0, 1⟩] :=
  (C9_remove_by_name "b"
    [⟨"a", 1, 0, 0⟩, ⟨"b", 0, 1, 0⟩, ⟨"c", 0, 0, 1⟩]).2.2

/-- C7: for both shape kinds and every requested point count, the generated
outline has exactly `pts` vertices; the parameter values are `2π·i/pts` for
`i < pts` (evenly spaced: consecutive difference `2π/pts`), all strictly
below `2π`, so the endpoint is excluded and no duplicate seam vertex is
produced; and every layer of a composed scene inherits the `pts`-vertex
outline. -/
theorem C7_outline_point_count (P : Prims) (c : ℚ × ℚ) (r : ℚ) (pts : ℕ)
    (w : ℚ) (g : RngState) (n : ℕ) (mode : String) (seed : ℕ)
    (shape : String) (bg : Color) (custom : List PaletteEntry)
    (G : Globals) :
    (blob P c r pts w g).1.xs.length = pts ∧
    (blob P c r pts w g).1.ys.length = pts ∧
    (heart P c r pts w g).1.xs.length = pts ∧
    (heart P c r pts w g).1.ys.length = pts ∧
    (∀ i : ℕ, i < pts →
      (linspaceTwoPi P pts).getD i 0 = 2 * P.pi * (i : ℚ) / (pts : ℚ)) ∧
    (∀ i : ℕ, i + 1 < pts →
      (linspaceTwoPi P pts).getD (i + 1) 0 - (linspaceTwoPi P pts).getD i 0
        = 2 * P.pi / (pts : ℚ)) ∧
    (0 < P.pi → ∀ i : ℕ, i < pts →
      (linspaceTwoPi P pts).getD i 0 < 2 * P.pi) ∧
    (∀ d ∈ (draw_posterP P pts n w mode seed shape bg custom G).1.layers,
      d.outline.xs.length = pts ∧ d.outline.ys.length = pts) := by
  refine ⟨blob_xs_length P c r pts w g, blob_ys_length P c r pts w g,
    heart_xs_length P c r pts w g, heart_ys_length P c r pts w g,
    fun i hi => linspaceTwoPi_getD P pts i hi, ?_, ?_, ?_⟩
  · intro i hi
    have hp : (pts : ℚ) ≠ 0 := Nat.cast_ne_zero.mpr (by omega)
    rw [linspaceTwoPi_getD P pts (i + 1) hi,
      linspaceTwoPi_getD P pts i (by omega)]
    push_cast
    field_simp
    ring
  · intro hpi i hi
    have hp : (0 : ℚ) < (pts : ℚ) := by
      exact_mod_cast Nat.pos_of_ne_zero (by omega)
    rw [linspaceTwoPi_getD P pts i hi, div_lt_iff hp]
    have hilt : (i : ℚ) < (pts : ℚ) := by exact_mod_cast hi
    have h2pi : (0 : ℚ) < 2 * P.pi := by linarith
    calc 2 * P.pi * (i : ℚ) < 2 * P.pi * (pts : ℚ) :=
          mul_lt_mul_of_pos_left hilt h2pi
      _ = 2 * P.pi * (pts : ℚ) := rfl
  · dsimp only [draw_posterP]
    split
    · exact composeLayers_outline_length P pts w shape _ n _ _
    · exact composeLayers_outline_length P pts w shape _ n _ _

theorem C7_outline_point_count_witness :
    (blob P0 (0, 0) 1 2 0 ⟨0, 0⟩).1.xs.length = 2 ∧
      (linspaceTwoPi P0 2).getD 0 0 = 2 * P0.pi * (0 : ℚ) / (2 : ℚ) := by
  obtain ⟨h1, _, _, _, h5, _⟩ := C7_outline_point_count P0 (0, 0) 1 2 0
    ⟨0, 0⟩ 1 "pastel" 0 "blob" (0, 0, 0) [] ⟨⟨0, 0⟩, ⟨0, 0⟩⟩
  exact ⟨h1, h5 0 (by decide)⟩

/-- C8: every heart-shape vertex at parameter `t = 2π·i/pts` has base
coordinates `16·sin³ t` and `13·cos t − 5·cos 2t − 2·cos 3t − cos 4t`, both
divided by 16, then a single per-point wobble multiplier
`1 + w·(u − 1/2)` — with one draw `u` shared between x and y — is applied to
both, scaled by `r` and translated by the center. -/
theorem C8_heart_curve (P : Prims) (c : ℚ × ℚ) (r : ℚ) (pts : ℕ) (w : ℚ)
    (g : RngState) (i : ℕ) (h : i < pts) :
    (heart P c r pts w g).1.xs.getD i 0
      = c.1 + 16 * (P.sin (2 * P.pi * (i : ℚ) / (pts : ℚ))) ^ 3 / 16 * r
          * (1 + w * (P.npFloat g.seed (g.pos + i) - 1/2)) ∧
    (heart P c r pts w g).1.ys.getD i 0
      = c.2 + (13 * P.cos (2 * P.pi * (i : ℚ) / (pts : ℚ))
            - 5 * P.cos (2 * (2 * P.pi * (i : ℚ) / (pts : ℚ)))
            - 2 * P.cos (3 * (2 * P.pi * (i : ℚ) / (pts : ℚ)))
            - P.cos (4 * (2 * P.pi * (i : ℚ) / (pts : ℚ)))) / 16 * r
          * (1 + w * (P.npFloat g.seed (g.pos + i) - 1/2)) := by
  have hx : i < (heart P c r pts w g).1.xs.length := by
    rw [heart_xs_length]
    exact h
  have hy : i < (heart P c r pts w g).1.ys.length := by
    rw [heart_ys_length]
    exact h
  rw [List.getD_eq_getElem _ _ hx, List.getD_eq_getElem _ _ hy]
  dsimp only [heart]
  simp [List.getElem_zip, linspaceTwoPi, npRandArray, h]

theorem C8_heart_curve_witness :
    (heart P0 (0, 0) 1 1 0 ⟨0, 0⟩).1.xs.getD 0 0
      = 0 + 16 * (P0.sin (2 * P0.pi * (0 : ℚ) / (1 : ℚ))) ^ 3 / 16 * 1
          * (1 + 0 * (P0.npFloat 0 (0 + 0) - 1/2)) :=
  (C8_heart_curve P0 (0, 0) 1 1 0 ⟨0, 0⟩ 0 (by decide)).1

/-- C3: with palette mode "custom" and a non-empty custom palette, the
resolved palette is exactly the stored entries' (r, g, b) triples in order
(length = the store's length, not k), and every layer's fill color is one of
them. -/
theorem C3_custom_palette_verbatim (P : Prims) (pts n : ℕ) (w : ℚ)
    (seed : ℕ) (shape : String) (bg : Color) (custom : List PaletteEntry)
    (G : Globals) (g : RngState) (hne : custom ≠ []) :
    (make_palette P 6 "custom" (60/100) custom g).colors
        = custom.map (fun c => (c.r, c.g, c.b)) ∧
      (make_palette P 6 "custom" (60/100) custom g).colors.length
        = custom.length ∧
      ∀ d ∈ (draw_posterP P pts n w "custom" seed shape bg custom
          G).1.layers,
        d.color ∈ custom.map (fun c => (c.r, c.g, c.b)) := by
  have key : ∀ g' : RngState,
      (make_palette P 6 "custom" (60/100) custom g').colors
        = custom.map (fun c => (c.r, c.g, c.b)) := by
    intro g'
    simp [make_palette, hne]
  have hmne : custom.map (fun c => (c.r, c.g, c.b)) ≠ [] := by
    simp [ne_eq, List.map_eq_nil_iff, hne]
  refine ⟨key g, by rw [key g, List.length_map], ?_⟩
  intro d hd
  dsimp only [draw_posterP] at hd
  have hm : ∀ hd' : d ∈ (composeLayers P pts w shape
      (make_palette P 6 "custom" (60/100) custom ⟨seed, 0⟩).colors n
      (make_palette P 6 "custom" (60/100) custom ⟨seed, 0⟩).rng
      ⟨seed, 0⟩).1, d.color ∈ custom.map (fun c => (c.r, c.g, c.b)) := by
    intro hd'
    have := composeLayers_color_mem P pts w shape
      (make_palette P 6 "custom" (60/100) custom ⟨seed, 0⟩).colors
      (by rw [key]; exact hmne) n
      (make_palette P 6 "custom" (60/100) custom ⟨seed, 0⟩).rng
      ⟨seed, 0⟩ d hd'
    rw [key] at this
    exact this
  split at hd
  · exact hm hd
  · exact hm hd

theorem C3_custom_palette_verbatim_witness :
    ([⟨"a", 1, 0, 0⟩] : List PaletteEntry) ≠ [] ∧
      (make_palette P0 6 "custom" (60/100) [⟨"a", 1, 0, 0⟩] ⟨0, 0⟩).colors
        = ([⟨"a", 1, 0, 0⟩] : List PaletteEntry).map
            (fun c => (c.r, c.g, c.b)) :=
  ⟨by decide,
    (C3_custom_palette_verbatim P0 1 1 0 0 "blob" (0, 0, 0) [⟨"a", 1, 0, 0⟩]
      ⟨⟨0, 0⟩, ⟨0, 0⟩⟩ ⟨0, 0⟩ (by decide)).1⟩

/-- C4: with palette mode "custom" and an empty custom palette, palette
resolution emits a non-fatal warning and falls back to the pastel sampling
loop with count k = 6, so composition yields a non-empty resolved palette
(of pastel-mode colors), does not error, and every layer's fill color comes
from that fallback palette. -/
theorem C4_empty_custom_fallback (P : Prims) (pts n : ℕ) (w : ℚ)
    (seed : ℕ) (shape : String) (bg : Color) (G : Globals) (g : RngState) :
    (make_palette P 6 "custom" (60/100) [] g).warned = true ∧
    (make_palette P 6 "custom" (60/100) [] g).colors
        = (paletteLoop P "pastel" (60/100) 6 g).1 ∧
    (make_palette P 6 "custom" (60/100) [] g).colors.length = 6 ∧
    (draw_posterP P pts n w "custom" seed shape bg [] G).1.errored
        = false ∧
    ∀ d ∈ (draw_posterP P pts n w "custom" seed shape bg [] G).1.layers,
      d.color ∈ (make_palette P 6 "custom" (60/100) [] ⟨seed, 0⟩).colors := by
  have hne := make_palette_colors_ne_nil P 6 "custom" (60/100) []
    (⟨seed, 0⟩ : RngState) (by omega)
  refine ⟨by simp [make_palette], by simp [make_palette], ?_, ?_, ?_⟩
  · simp [make_palette, paletteLoop_length]
  · dsimp only [draw_posterP]
    have herr := composeLayers_not_errored P pts w shape
      (make_palette P 6 "custom" (60/100) [] ⟨seed, 0⟩).colors hne n
      (make_palette P 6 "custom" (60/100) [] ⟨seed, 0⟩).rng ⟨seed, 0⟩
    rw [if_neg (by rw [herr]; simp)]
  · intro d hd
    dsimp only [draw_posterP] at hd
    split at hd
    · exact composeLayers_color_mem P pts w shape _ hne n _ _ d hd
    · exact composeLayers_color_mem P pts w shape _ hne n _ _ d hd

theorem C4_empty_custom_fallback_witness :
    (make_palette P0 6 "custom" (60/100) [] ⟨0, 0⟩).warned = true ∧
      (draw_posterP P0 1 1 0 "custom" 0 "blob" (0, 0, 0) []
        ⟨⟨0, 0⟩, ⟨0, 0⟩⟩).1.errored = false :=
  ⟨(C4_empty_custom_fallback P0 1 1 0 0 "blob" (0, 0, 0)
      ⟨⟨0, 0⟩, ⟨0, 0⟩⟩ ⟨0, 0⟩).1,
    (C4_empty_custom_fallback P0 1 1 0 0 "blob" (0, 0, 0)
      ⟨⟨0, 0⟩, ⟨0, 0⟩⟩ ⟨0, 0⟩).2.2.2.1⟩

lemma draw_posterP_layers (P : Prims) (pts n : ℕ) (w : ℚ) (mode : String)
    (seed : ℕ) (shape : String) (bg : Color) (custom : List PaletteEntry)
    (g : Globals) :
    (draw_posterP P pts n w mode seed shape bg custom g).1.layers
      = (composeLayers P pts w shape
          (make_palette P 6 mode (60/100) custom ⟨seed, 0⟩).colors n
          (make_palette P 6 mode (60/100) custom ⟨seed, 0⟩).rng
          ⟨seed, 0⟩).1 := by
  dsimp only [draw_posterP]
  split <;> rfl

lemma composeLayers_samples_indep (P : Prims) (palette : List Color)
    (n : ℕ) :
    ∀ (py np np' : RngState) (pts pts' : ℕ) (w w' : ℚ) (sh sh' : String),
      (composeLayers P pts w sh palette n py np).1.map layerSample
          = (composeLayers P pts' w' sh' palette n py np').1.map
            layerSample ∧
        (composeLayers P pts w sh palette n py np).2.1
          = (composeLayers P pts' w' sh' palette n py np').2.1 := by
  induction n with
  | zero => intro py np np' pts pts' w w' sh sh'; exact ⟨rfl, rfl⟩
  | succ n ih =>
    intro py np np' pts pts' w w' sh sh'
    by_cases hne : palette = []
    · subst hne
      constructor <;> simp [composeLayers]
    · simp only [composeLayers, if_neg hne, List.map_cons]
      refine ⟨?_, (ih _ _ _ _ _ _ _ _ _).2⟩
      congr 1
      exact (ih _ _ _ _ _ _ _ _ _).1

/-- C10: for a fixed seed, layer count, palette mode and custom-palette
snapshot, the per-layer centers, radii, fill-color index choices and alphas
produced by `draw_poster` are identical for every wobble value, every
outline point count and both shape kinds (and any ambient generator state),
because those draws come from Python's generator while the per-point wobble
draws come from numpy's separate generator. -/
theorem C10_samples_independent_of_wobble (P : Prims) (n : ℕ)
    (mode : String) (seed : ℕ) (bg : Color) (custom : List PaletteEntry)
    (g g' : Globals) (w w' : ℚ) (shape shape' : String) (pts pts' : ℕ) :
    (draw_posterP P pts n w mode seed shape bg custom g).1.layers.map
        layerSample
      = (draw_posterP P pts' n w' mode seed shape' bg custom
          g').1.layers.map layerSample := by
  rw [draw_posterP_layers, draw_posterP_layers]
  exact (composeLayers_samples_indep P
    (make_palette P 6 mode (60/100) custom ⟨seed, 0⟩).colors n
    (make_palette P 6 mode (60/100) custom ⟨seed, 0⟩).rng
    ⟨seed, 0⟩ ⟨seed, 0⟩ pts pts' w w' shape shape').1

lemma paletteColor_snd (P : Prims) (mode : String) (base_h : ℚ)
    (g : RngState) :
    (paletteColor P mode base_h g).2
      = ⟨g.seed, g.pos + (if mode = "mono" then 2 else 3)⟩ := by
  by_cases hp : mode = "pastel"
  · subst hp
    dsimp only [paletteColor, randomUniform, randomFloat]
    rw [if_pos rfl, if_neg (by decide)]
  by_cases hv : mode = "vivid"
  · subst hv
    dsimp only [paletteColor, randomUniform, randomFloat]
    rw [if_neg (by decide), if_pos rfl, if_neg (by decide)]
  by_cases hm : mode = "mono"
  · subst hm
    dsimp only [paletteColor, randomUniform, randomFloat]
    rw [if_neg (by decide), if_neg (by decide), if_pos rfl, if_pos rfl]
  · dsimp only [paletteColor, randomUniform, randomFloat]
    rw [if_neg hp, if_neg hv, if_neg hm, if_neg hm]

lemma paletteLoop_snd (P : Prims) (mode : String) (base_h : ℚ) :
    ∀ (k : ℕ) (g : RngState),
      (paletteLoop P mode base_h k g).2
        = ⟨g.seed, g.pos + k * (if mode = "mono" then 2 else 3)⟩
  | 0, g => by
    cases g
    simp [paletteLoop]
  | k + 1, g => by
    simp only [paletteLoop]
    rw [paletteLoop_snd P mode base_h k, paletteColor_snd]
    simp only [RngState.mk.injEq]
    refine ⟨?_, ?_⟩
    · trivial
    · by_cases hm : mode = "mono" <;> simp only [hm, if_true, if_false] <;>
        ring

lemma make_palette_rng (P : Prims) (mode : String) (base_h : ℚ)
    (custom : List PaletteEntry) (g : RngState) :
    (make_palette P 6 mode base_h custom g).rng
      = ⟨g.seed, g.pos + paletteDrawCount mode custom⟩ := by
  by_cases h1 : mode = "custom"
  · subst h1
    by_cases h2 : custom = []
    · subst h2
      have hr : (make_palette P 6 "custom" base_h [] g).rng
          = (paletteLoop P "pastel" base_h 6 g).2 := by
        simp [make_palette]
      rw [hr, paletteLoop_snd,
        if_neg (show ("pastel" : String) ≠ "mono" by decide)]
      rfl
    · have hr : (make_palette P 6 "custom" base_h custom g).rng = g := by
        simp [make_palette, h2]
      have hc : paletteDrawCount "custom" custom = 0 := by
        simp [paletteDrawCount, h2]
      rw [hr, hc]
      cases g
      rfl
  · have hr : (make_palette P 6 mode base_h custom g).rng
        = (paletteLoop P mode base_h 6 g).2 := by
      simp [make_palette, h1]
    have hc : paletteDrawCount mode custom
        = (if mode = "mono" then 12 else 18) := by
      simp [paletteDrawCount, h1]
    rw [hr, hc, paletteLoop_snd]
    by_cases hm : mode = "mono"
    · rw [hm]
      simp
    · rw [if_neg hm, if_neg hm]

lemma composeLayers_final (P : Prims) (pts : ℕ) (w : ℚ) (shape : String)
    (palette : List Color) (hne : palette ≠ []) :
    ∀ (n : ℕ) (py np : RngState),
      (composeLayers P pts w shape palette n py np).2.2
        = (⟨py.seed, py.pos + 5 * n⟩, ⟨np.seed, np.pos + pts * n⟩)
  | 0, py, np => by
    cases py
    cases np
    simp [composeLayers]
  | n + 1, py, np => by
    simp only [composeLayers, if_neg hne]
    rw [composeLayers_final P pts w shape palette hne n]
    dsimp only [randomChoice, randomUniform, randomFloat]
    by_cases hs : shape = "heart" <;>
      simp only [hs, if_true, if_false] <;>
      dsimp only [heart, blob, npRandArray] <;>
      simp only [Prod.mk.injEq, RngState.mk.injEq] <;>
      refine ⟨⟨?_, ?_⟩, ?_, ?_⟩ <;> first | rfl | trivial | ring

/-- C2 (amended): within one `draw_poster` call the wobble jitter draws and
the layer/palette sampling draws come from two separate generators — numpy's
for the per-point wobble, Python's for the palette and layer sampling — each
re-seeded once per call with the same seed and each consumed as one ordered
draw sequence: the final generator states are (seed, palette draws + 5 per
layer) and (seed, pts per layer), independent of the incoming states. -/
theorem C2_two_generators_reseeded_once (P : Prims) (pts n : ℕ) (w : ℚ)
    (mode : String) (seed : ℕ) (shape : String) (bg : Color)
    (custom : List PaletteEntry) (g : Globals) :
    (draw_posterP P pts n w mode seed shape bg custom g).2
      = ⟨⟨seed, paletteDrawCount mode custom + 5 * n⟩, ⟨seed, pts * n⟩⟩ := by
  have hne := make_palette_colors_ne_nil P 6 mode (60/100) custom
    (⟨seed, 0⟩ : RngState) (by omega)
  have hfin2 : (composeLayers P pts w shape
      (make_palette P 6 mode (60/100) custom ⟨seed, 0⟩).colors n
      (make_palette P 6 mode (60/100) custom ⟨seed, 0⟩).rng ⟨seed, 0⟩).2.2
      = (⟨seed, paletteDrawCount mode custom + 5 * n⟩,
         ⟨seed, pts * n⟩) := by
    rw [composeLayers_final P pts w shape _ hne n _ _, make_palette_rng]
    dsimp only
    simp only [Prod.mk.injEq, RngState.mk.injEq]
    refine ⟨⟨?_, ?_⟩, ?_, ?_⟩ <;> first | rfl | trivial | ring
  dsimp only [draw_posterP]
  split <;> (dsimp only; rw [hfin2])

/-- C2 (counterexample): the scene composed by the source's `draw_poster` is
not the scene of the single-stream model the spec describes.  With the
Python index stream returning its own position, one layer and a three-color
custom palette, the source draws the fill-color index at Python position 3
(3 % 3 = 0), while single-stream sequencing places that draw at position
203 — after the 200 wobble draws — giving 203 % 3 = 2. -/
theorem C2_single_stream_counterexample :
    (draw_poster Pcex 1 (15/100) "custom" 0 "blob" (0, 0, 0)
        [⟨"c1", 1, 0, 0⟩, ⟨"c2", 0, 1, 0⟩, ⟨"c3", 0, 0, 1⟩]
        ⟨⟨0, 0⟩, ⟨0, 0⟩⟩).1
      ≠ SingleStreamSpec.draw_poster_single Pcex 1 (15/100) "custom" 0
        "blob" (0, 0, 0)
        [⟨"c1", 1, 0, 0⟩, ⟨"c2", 0, 1, 0⟩, ⟨"c3", 0, 0, 1⟩] := by
  intro h
  have h2 := congrArg (fun s => s.layers.map (fun d => d.colorIdx)) h
  have e1 : (draw_poster Pcex 1 (15/100) "custom" 0 "blob" (0, 0, 0)
      [⟨"c1", 1, 0, 0⟩, ⟨"c2", 0, 1, 0⟩, ⟨"c3", 0, 0, 1⟩]
      ⟨⟨0, 0⟩, ⟨0, 0⟩⟩).1.layers.map (fun d => d.colorIdx)
      = [0] := by rfl
  have e2 : (SingleStreamSpec.draw_poster_single Pcex 1 (15/100) "custom" 0
      "blob" (0, 0, 0)
      [⟨"c1", 1, 0, 0⟩, ⟨"c2", 0, 1, 0⟩,
        ⟨"c3", 0, 0, 1⟩]).layers.map (fun d => d.colorIdx)
      = [2] := by rfl
  simp only [e1, e2] at h2
  exact absurd h2 (by decide)

end PosterApp
